import Mathlib

/-!
Verification development for the receipt backend: a GraphQL BFF
(`bff/bffserver.js`) in front of a gRPC service (`server.js`) whose handlers
run parameterized SQL over four tables (`patient`, `doctor`, `medicine`,
`prescription_reference`).

The gRPC handlers are embedded shallowly.  The database is a value of `DB`
(each table a list of rows), each handler is a pure function from the
database and the request message to the database after the call together
with a gRPC result, and the possibility that an `await`ed step
(`sql.connect`, `transaction.begin`, a query, `transaction.commit`) throws
is an explicit boolean fault flag for that step.  Request messages follow
proto3 wire semantics: scalar fields are always present, an omitted string
arrives as `""` and an omitted int as `0`, and the JavaScript handlers test
them for truthiness.
-/

namespace Receipt

/-- The gRPC status codes of `grpc.status`.  The handlers only ever construct
`NOT_FOUND` and `INTERNAL`; the remaining constructors exist so that proving
"no other status is produced" is a statement about the code, not about the
type. -/
inductive GrpcStatus where
  | OK
  | CANCELLED
  | UNKNOWN
  | INVALID_ARGUMENT
  | DEADLINE_EXCEEDED
  | NOT_FOUND
  | ALREADY_EXISTS
  | PERMISSION_DENIED
  | INTERNAL
  | UNAVAILABLE
  deriving DecidableEq

/-- A row of the `patient` table: `id`, `name`, `age`, `gender`, `contact`. -/
structure Patient where
  id : Int
  name : String
  age : Int
  gender : String
  contact : String
  deriving DecidableEq

/-- A row of the `doctor` table: `id`, `name`. -/
structure Doctor where
  id : Int
  name : String
  deriving DecidableEq

/-- A row of the `medicine` table: `id`, `name`, `description`. -/
structure Medicine where
  id : Int
  name : String
  description : String
  deriving DecidableEq

/-- A row of the `prescription_reference` table: the join table carrying
`reference_number` and the three foreign keys. -/
structure PrescriptionReference where
  reference_number : String
  patient_id : Int
  doctor_id : Int
  medicine_id : Int
  deriving DecidableEq

/-- The database: the four tables, each a list of rows. -/
structure DB where
  patient : List Patient
  doctor : List Doctor
  medicine : List Medicine
  prescription_reference : List PrescriptionReference
  deriving DecidableEq

/-- JavaScript truthiness of a proto3 string field: only `""` is falsy. -/
def truthyS (s : String) : Bool := s != ""

/-- JavaScript truthiness of a proto3 int field: only `0` is falsy. -/
def truthyI (n : Int) : Bool := n != 0

/-- A row of the four-table join
`prescription_reference pr JOIN patient p ON pr.patient_id = p.id
JOIN doctor d ON pr.doctor_id = d.id JOIN medicine m ON pr.medicine_id = m.id`
as selected by `GetPrescription` and `GetAllPatients`. -/
structure JoinRow where
  reference_number : String
  patient_name : String
  patient_age : Int
  gender : String
  contact : String
  doctor_name : String
  medicine_name : String
  description : String
  deriving DecidableEq

/-- The rows of the four-table inner join, in table order (each reference row
paired with every `patient`/`doctor`/`medicine` row its keys match). -/
def DB.joinRows (db : DB) : List JoinRow :=
  db.prescription_reference.flatMap (fun pr =>
    (db.patient.filter (fun p => p.id = pr.patient_id)).flatMap (fun p =>
      (db.doctor.filter (fun d => d.id = pr.doctor_id)).flatMap (fun d =>
        (db.medicine.filter (fun m => m.id = pr.medicine_id)).map (fun m =>
          { reference_number := pr.reference_number
            patient_name := p.name
            patient_age := p.age
            gender := p.gender
            contact := p.contact
            doctor_name := d.name
            medicine_name := m.name
            description := m.description }))))

/-- The response message of `GetPrescription`. -/
structure PrescriptionMsg where
  reference_number : String
  patient_name : String
  age : Int
  gender : String
  contact : String
  doctor_name : String
  medicine_name : String
  description : String
  deriving DecidableEq

/-- Handler `GetPrescription` (server.js): select the join rows whose
`reference_number` equals `ref_no`; an empty recordset is `NOT_FOUND`,
otherwise the first row is returned.  `fault = true` models `sql.connect` or
the query throwing, which the `catch` turns into `INTERNAL`. -/
def GetPrescription (fault : Bool) (db : DB) (ref_no : String) :
    DB × Except GrpcStatus PrescriptionMsg :=
  if fault then (db, .error .INTERNAL)
  else
    match db.joinRows.filter (fun r => r.reference_number = ref_no) with
    | [] => (db, .error .NOT_FOUND)
    | row :: _ =>
      (db, .ok
        { reference_number := row.reference_number
          patient_name := row.patient_name
          age := row.patient_age
          gender := row.gender
          contact := row.contact
          doctor_name := row.doctor_name
          medicine_name := row.medicine_name
          description := row.description })

/-- The response message of `GetPatient`. -/
structure PatientMsg where
  name : String
  age : Int
  gender : String
  contact : String
  deriving DecidableEq

/-- Handler `GetPatient` (server.js): `SELECT * FROM patient WHERE name = @patientName`;
an empty recordset is `NOT_FOUND`, otherwise the first row is returned.
`fault = true` models a connection or query failure (`INTERNAL`). -/
def GetPatient (fault : Bool) (db : DB) (patientName : String) :
    DB × Except GrpcStatus PatientMsg :=
  if fault then (db, .error .INTERNAL)
  else
    match db.patient.filter (fun p => p.name = patientName) with
    | [] => (db, .error .NOT_FOUND)
    | row :: _ =>
      (db, .ok { name := row.name, age := row.age, gender := row.gender, contact := row.contact })

/-- SQL `LIKE` matching on character lists: `%` matches any sequence, `_`
matches any single character, any other pattern character matches itself. -/
def likeMatch : List Char → List Char → Bool
  | [], s => s.isEmpty
  | p :: ps, s =>
    if p = '%' then
      likeMatch ps s ||
        (match s with
         | [] => false
         | _ :: s2 => likeMatch (p :: ps) s2)
    else
      match s with
      | [] => false
      | c :: s2 => (p = '_' || p = c) && likeMatch ps s2
termination_by ps s => (ps.length, s.length)

/-- Handler `GetReference` (server.js): `SELECT reference_number FROM
prescription_reference WHERE reference_number LIKE @ref_no` with the pattern
`%ref_no%`; an empty recordset is `NOT_FOUND`, otherwise the list of matching
reference numbers is returned. -/
def GetReference (fault : Bool) (db : DB) (ref_no : String) :
    DB × Except GrpcStatus (List String) :=
  if fault then (db, .error .INTERNAL)
  else
    match db.prescription_reference.filter
        (fun r => likeMatch ("%" ++ ref_no ++ "%").toList r.reference_number.toList) with
    | [] => (db, .error .NOT_FOUND)
    | row :: rest => (db, .ok ((row :: rest).map (fun r => r.reference_number)))

/-- A row of the `GetAllPatients` response: a join row plus the pagination
totals the handler copies onto every row. -/
structure PagedPatientRow where
  reference_number : String
  name : String
  age : Int
  gender : String
  contact : String
  doctor_name : String
  medicine_name : String
  description : String
  totalCount : Nat
  totalPages : Nat
  deriving DecidableEq

/-- The response message of `GetAllPatients`. -/
structure AllPatientsResponse where
  patients : List PagedPatientRow
  totalPages : Nat
  deriving DecidableEq

/-- The join rows ordered by `reference_number` (the query's
`ORDER BY pr.reference_number`). -/
def DB.sortedJoin (db : DB) : List JoinRow :=
  db.joinRows.mergeSort (fun a b => a.reference_number ≤ b.reference_number)

/-- The row conversion `GetAllPatients` applies to each join row, copying
the pagination totals onto every row. -/
def toPagedRow (totalCount totalPages : Nat) (r : JoinRow) : PagedPatientRow :=
  { reference_number := r.reference_number
    name := r.patient_name
    age := r.patient_age
    gender := r.gender
    contact := r.contact
    doctor_name := r.doctor_name
    medicine_name := r.medicine_name
    description := r.description
    totalCount := totalCount
    totalPages := totalPages }

/-- The successful `GetAllPatients` response for effective page `p` and page
size `ps`: `totalCount` is `COUNT(*) FROM prescription_reference`,
`totalPages` is `Math.ceil(totalCount / pageSize)`, and the rows are the
sorted join with `OFFSET (p-1)*ps ROWS FETCH NEXT ps ROWS ONLY`. -/
def allPatientsPage (db : DB) (p ps : Int) : AllPatientsResponse :=
  let totalCount := db.prescription_reference.length
  let totalPages := (totalCount + ps.toNat - 1) / ps.toNat
  { patients := ((db.sortedJoin.drop ((p - 1) * ps).toNat).take ps.toNat).map
      (toPagedRow totalCount totalPages)
    totalPages := totalPages }

/-- Handler `GetAllPatients` (server.js): `page = call.request.page || 1`,
`pageSize = call.request.pageSize || 10`, `offset = (page - 1) * pageSize`;
the response is the page of the sorted join together with the totals.  SQL
Server rejects a negative `OFFSET` and a non-positive fetch count, which the
`catch` turns into `INTERNAL`, as it does any connection or query failure
(`fault = true`). -/
def GetAllPatients (fault : Bool) (db : DB) (page pageSize : Int) :
    DB × Except GrpcStatus AllPatientsResponse :=
  if fault then (db, .error .INTERNAL)
  else
    let p := if truthyI page then page else 1
    let ps := if truthyI pageSize then pageSize else 10
    if (p - 1) * ps < 0 || ps < 0 then (db, .error .INTERNAL)
    else (db, .ok (allPatientsPage db p ps))

/-- The request message of `UpdatePatientDetails`, with proto3 wire
semantics: every scalar field is present, an omitted string is `""` and an
omitted int is `0`. -/
structure UpdateRequest where
  reference_number : String
  name : String
  age : Int
  gender : String
  contact : String
  doctor_name : String
  medicine_name : String
  description : String
  deriving DecidableEq

/-- Fault model for the update transaction: each flag says that the
corresponding `await`ed statement throws when it is executed. -/
structure Faults where
  connectFails : Bool
  beginFails : Bool
  lookupFails : Bool
  patientFails : Bool
  doctorFails : Bool
  medicineFails : Bool
  commitFails : Bool
  deriving DecidableEq

/-- The schedule with no faults: every statement succeeds. -/
def noFaults : Faults :=
  { connectFails := false, beginFails := false, lookupFails := false,
    patientFails := false, doctorFails := false, medicineFails := false,
    commitFails := false }

/-- Names of the three conditional `UPDATE` statements of the transaction. -/
inductive TableName where
  | patientT
  | doctorT
  | medicineT
  deriving DecidableEq

/-- The observable outcome of one `UpdatePatientDetails` call: the database
after the call (committed state), the list of `UPDATE` statements that were
executed successfully (rolled back or not), whether an exception was raised
after `transaction.begin` succeeded, and the gRPC result (`.ok true` stands
for `{ success: true }`). -/
structure UpdateOutcome where
  db : DB
  issued : List TableName
  raised : Bool
  result : Except GrpcStatus Bool

/-- The id lookup: `SELECT pr.patient_id, pr.doctor_id, pr.medicine_id FROM
prescription_reference pr WHERE pr.reference_number = @reference_number`,
taking `recordset[0]` if any row matches. -/
def DB.findRef (db : DB) (ref : String) : Option PrescriptionReference :=
  db.prescription_reference.find? (fun r => r.reference_number = ref)

/-- The `UPDATE patient SET ... COALESCE ...` row transformer: the JS passes
`name || null` etc., so a falsy field arrives as SQL `NULL` and `COALESCE`
keeps the stored value. -/
def updatePatientRow (req : UpdateRequest) (p : Patient) : Patient :=
  { p with
    name := if truthyS req.name then req.name else p.name
    age := if truthyI req.age then req.age else p.age
    gender := if truthyS req.gender then req.gender else p.gender
    contact := if truthyS req.contact then req.contact else p.contact }

/-- The `UPDATE doctor SET name = @doctor_name` row transformer (no
`COALESCE`; the statement only runs when `doctor_name` is truthy). -/
def updateDoctorRow (req : UpdateRequest) (d : Doctor) : Doctor :=
  { d with name := req.doctor_name }

/-- The `UPDATE medicine SET ... COALESCE ...` row transformer. -/
def updateMedicineRow (req : UpdateRequest) (m : Medicine) : Medicine :=
  { m with
    name := if truthyS req.medicine_name then req.medicine_name else m.name
    description := if truthyS req.description then req.description else m.description }

/-- The truthiness guard of the patient `UPDATE`:
`if (name || age || gender || contact)`. -/
def guardPatient (req : UpdateRequest) : Bool :=
  truthyS req.name || truthyI req.age || truthyS req.gender || truthyS req.contact

/-- The truthiness guard of the doctor `UPDATE`: `if (doctor_name)`. -/
def guardDoctor (req : UpdateRequest) : Bool :=
  truthyS req.doctor_name

/-- The truthiness guard of the medicine `UPDATE`:
`if (medicine_name || description)`. -/
def guardMedicine (req : UpdateRequest) : Bool :=
  truthyS req.medicine_name || truthyS req.description

/-- Handler `UpdatePatientDetails` (server.js): connect, begin a transaction, look up
the three ids by `reference_number` (`NOT_FOUND` rolls back and returns),
then run the three conditional `UPDATE` statements on the staged state and
commit.  A throw before the transaction begins is caught by the outer
`catch` (`INTERNAL`, nothing staged); a throw on any later statement is
caught by the inner `catch`, which rolls the transaction back (the committed
state stays the input database) and rethrows to the outer `catch`
(`INTERNAL`). -/
def UpdatePatientDetails (f : Faults) (db : DB) (req : UpdateRequest) : UpdateOutcome :=
  if f.connectFails then { db := db, issued := [], raised := false, result := .error .INTERNAL }
  else if f.beginFails then { db := db, issued := [], raised := false, result := .error .INTERNAL }
  else if f.lookupFails then { db := db, issued := [], raised := true, result := .error .INTERNAL }
  else
    match db.findRef req.reference_number with
    | none => { db := db, issued := [], raised := false, result := .error .NOT_FOUND }
    | some r =>
      if guardPatient req && f.patientFails then
        { db := db, issued := [], raised := true, result := .error .INTERNAL }
      else
        let db1 :=
          if guardPatient req then
            { db with patient := db.patient.map (fun p => if p.id = r.patient_id then updatePatientRow req p else p) }
          else db
        let t1 := if guardPatient req then [TableName.patientT] else []
        if guardDoctor req && f.doctorFails then
          { db := db, issued := t1, raised := true, result := .error .INTERNAL }
        else
          let db2 :=
            if guardDoctor req then
              { db1 with doctor := db1.doctor.map (fun d => if d.id = r.doctor_id then updateDoctorRow req d else d) }
            else db1
          let t2 := t1 ++ (if guardDoctor req then [TableName.doctorT] else [])
          if guardMedicine req && f.medicineFails then
            { db := db, issued := t2, raised := true, result := .error .INTERNAL }
          else
            let db3 :=
              if guardMedicine req then
                { db2 with medicine := db2.medicine.map (fun m => if m.id = r.medicine_id then updateMedicineRow req m else m) }
              else db2
            let t3 := t2 ++ (if guardMedicine req then [TableName.medicineT] else [])
            if f.commitFails then
              { db := db, issued := t3, raised := true, result := .error .INTERNAL }
            else
              { db := db3, issued := t3, raised := false, result := .ok true }

/-- Spec-side description of what a successful update commits, following the
claim's words for `UpdatePatientDetails`: in each of the three referenced
rows (the rows whose `id` the matched reference carries), every supplied
(truthy) input field replaces the stored value and every missing (falsy)
input field leaves the stored value unchanged; no other row and no other
table changes. -/
def specCommittedUpdate (db : DB) (r : PrescriptionReference) (req : UpdateRequest) : DB :=
  { db with
    patient := db.patient.map (fun p => if p.id = r.patient_id then updatePatientRow req p else p)
    doctor := db.doctor.map (fun d =>
      if d.id = r.doctor_id then
        { d with name := if truthyS req.doctor_name then req.doctor_name else d.name }
      else d)
    medicine := db.medicine.map (fun m => if m.id = r.medicine_id then updateMedicineRow req m else m) }

/-- Referential integrity: every `prescription_reference` row references
exactly one existing `patient`, `doctor` and `medicine` row. -/
def RefIntegrity (db : DB) : Prop :=
  ∀ pr ∈ db.prescription_reference,
    db.patient.countP (fun p => p.id = pr.patient_id) = 1 ∧
    db.doctor.countP (fun d => d.id = pr.doctor_id) = 1 ∧
    db.medicine.countP (fun m => m.id = pr.medicine_id) = 1

instance instDecidableRefIntegrity (db : DB) : Decidable (RefIntegrity db) :=
  decidable_of_iff (∀ pr ∈ db.prescription_reference,
      db.patient.countP (fun p => p.id = pr.patient_id) = 1 ∧
      db.doctor.countP (fun d => d.id = pr.doctor_id) = 1 ∧
      db.medicine.countP (fun m => m.id = pr.medicine_id) = 1) Iff.rfl

/-- The GraphQL arguments of `getPatient`. -/
structure GetPatientArgs where
  name : String
  deriving DecidableEq

/-- The GraphQL arguments of `getPrescription` and `getReference`. -/
structure RefArgs where
  ref_no : String
  deriving DecidableEq

/-- The GraphQL arguments of `getAllPatients`; both are nullable in the
schema, and an omitted argument is forwarded as is. -/
structure PageArgs where
  page : Option Int
  pageSize : Option Int
  deriving DecidableEq

/-- The GraphQL arguments of `updatePatientDetails`; only
`reference_number` is non-nullable. -/
structure UpdateArgs where
  reference_number : String
  name : Option String
  age : Option Int
  gender : Option String
  contact : Option String
  doctor_name : Option String
  medicine_name : Option String
  description : Option String
  deriving DecidableEq

/-- The remote `GetAllPatients` response as the BFF sees it:
`response.patients` may be absent. -/
structure AllPatientsRemoteResponse where
  patients : Option (List PagedPatientRow)
  totalPages : Nat
  deriving DecidableEq

/-- The remote `UpdatePatientDetails` response as the BFF sees it. -/
structure UpdateRemoteResponse where
  success : Bool
  deriving DecidableEq

/-- The remote `GetReference` response as the BFF sees it. -/
structure SearchMsg where
  reference : List String
  deriving DecidableEq

/-- One resolver invocation: the list of remote requests it makes, in order,
and the promise outcome (`.error` is `reject err`, `.ok` is `resolve v`). -/
structure ResolverRun (ρ : Type) (ε : Type) (α : Type) where
  requests : List ρ
  outcome : Except ε α

/-- The `getPatient` resolver (bffserver.js): one `patientClient.GetPatient`
call with `{ name }`; reject the error or resolve the response. -/
def getPatientResolver {ε : Type} (remote : GetPatientArgs → Except ε PatientMsg)
    (name : String) : ResolverRun GetPatientArgs ε PatientMsg :=
  { requests := [{ name := name }]
    outcome :=
      match remote { name := name } with
      | .error e => .error e
      | .ok r => .ok r }

/-- The `getAllPatients` resolver (bffserver.js): one
`patientClient.GetAllPatients` call with `{ page, pageSize }`; reject the
error or resolve `response.patients || []`. -/
def getAllPatientsResolver {ε : Type}
    (remote : PageArgs → Except ε AllPatientsRemoteResponse)
    (page pageSize : Option Int) : ResolverRun PageArgs ε (List PagedPatientRow) :=
  { requests := [{ page := page, pageSize := pageSize }]
    outcome :=
      match remote { page := page, pageSize := pageSize } with
      | .error e => .error e
      | .ok r => .ok (r.patients.getD []) }

/-- The `getPrescription` resolver (bffserver.js): one
`prescriptionClient.GetPrescription` call with `{ ref_no }`; reject the
error or resolve the response. -/
def getPrescriptionResolver {ε : Type} (remote : RefArgs → Except ε PrescriptionMsg)
    (ref_no : String) : ResolverRun RefArgs ε PrescriptionMsg :=
  { requests := [{ ref_no := ref_no }]
    outcome :=
      match remote { ref_no := ref_no } with
      | .error e => .error e
      | .ok r => .ok r }

/-- The `getReference` resolver (bffserver.js): one
`searchClient.GetReference` call with `{ ref_no }`; reject the error or
resolve the response. -/
def getReferenceResolver {ε : Type} (remote : RefArgs → Except ε SearchMsg)
    (ref_no : String) : ResolverRun RefArgs ε SearchMsg :=
  { requests := [{ ref_no := ref_no }]
    outcome :=
      match remote { ref_no := ref_no } with
      | .error e => .error e
      | .ok r => .ok r }

/-- The `updatePatientDetails` resolver (bffserver.js): one
`patientClient.UpdatePatientDetails` call with the whole `args` object;
reject the error or resolve `response.success`. -/
def updatePatientDetailsResolver {ε : Type}
    (remote : UpdateArgs → Except ε UpdateRemoteResponse)
    (args : UpdateArgs) : ResolverRun UpdateArgs ε Bool :=
  { requests := [args]
    outcome :=
      match remote args with
      | .error e => .error e
      | .ok r => .ok r.success }

/-! ## Helper lemmas -/

/-- Mapping a function that fixes every element is the identity. -/
theorem map_id_of_fix {α : Type} (l : List α) (f : α → α) (h : ∀ a, f a = a) :
    l.map f = l := by
  induction l with
  | nil => rfl
  | cons a t ih => simp only [List.map_cons, h, ih]

/-- Projecting a field that a row transformer preserves commutes with `map`. -/
theorem map_map_field {α β : Type} (l : List α) (g : α → α) (fld : α → β)
    (h : ∀ a, fld (g a) = fld a) : (l.map g).map fld = l.map fld := by
  induction l with
  | nil => rfl
  | cons a t ih => simp only [List.map_cons, h, ih]

/-- Counting a predicate on a field that a row transformer preserves is
unchanged by mapping the transformer. -/
theorem countP_map_fix {α : Type} (l : List α) (g : α → α) (q : α → Bool)
    (h : ∀ a, q (g a) = q a) : (l.map g).countP q = l.countP q := by
  rw [List.countP_map]
  exact List.countP_congr (fun a _ => by rw [Function.comp_apply, h])

/-- When the patient guard is false, all four patient input fields are falsy
and the `COALESCE` row transformer is the identity. -/
theorem updatePatientRow_of_guard_false (req : UpdateRequest)
    (h : guardPatient req = false) (p : Patient) : updatePatientRow req p = p := by
  simp only [guardPatient, Bool.or_eq_false_iff] at h
  obtain ⟨⟨⟨h1, h2⟩, h3⟩, h4⟩ := h
  cases p
  simp [updatePatientRow, h1, h2, h3, h4]

/-- When the medicine guard is false, both medicine input fields are falsy
and the `COALESCE` row transformer is the identity. -/
theorem updateMedicineRow_of_guard_false (req : UpdateRequest)
    (h : guardMedicine req = false) (m : Medicine) : updateMedicineRow req m = m := by
  simp only [guardMedicine, Bool.or_eq_false_iff] at h
  obtain ⟨h1, h2⟩ := h
  cases m
  simp [updateMedicineRow, h1, h2]

/-- The conditional patient-table map is the identity when the guard is
false. -/
theorem patientTable_map_of_guard_false (req : UpdateRequest) (pid : Int)
    (h : guardPatient req = false) (l : List Patient) :
    l.map (fun p => if p.id = pid then updatePatientRow req p else p) = l := by
  refine map_id_of_fix _ _ (fun p => ?_)
  by_cases hid : p.id = pid
  · simp [hid, updatePatientRow_of_guard_false req h]
  · simp [hid]

/-- The spec-side doctor-table map is the identity when the guard is false. -/
theorem doctorTable_map_of_guard_false (req : UpdateRequest) (did : Int)
    (h : truthyS req.doctor_name = false) (l : List Doctor) :
    l.map (fun d =>
      if d.id = did then
        { d with name := if truthyS req.doctor_name then req.doctor_name else d.name }
      else d) = l := by
  refine map_id_of_fix _ _ (fun d => ?_)
  by_cases hid : d.id = did
  · cases d; simp [hid, h]
  · simp [hid]

/-- The conditional medicine-table map is the identity when the guard is
false. -/
theorem medicineTable_map_of_guard_false (req : UpdateRequest) (mid : Int)
    (h : guardMedicine req = false) (l : List Medicine) :
    l.map (fun m => if m.id = mid then updateMedicineRow req m else m) = l := by
  refine map_id_of_fix _ _ (fun m => ?_)
  by_cases hid : m.id = mid
  · simp [hid, updateMedicineRow_of_guard_false req h]
  · simp [hid]

/-- Characterization of a run in which connect, begin, the lookup, every
executed `UPDATE` and the commit all succeed and the reference is found: the
committed state is exactly the spec-side `specCommittedUpdate`, the executed
statements are the guarded ones, and the call reports success. -/
theorem updateDetails_commit (f : Faults) (db : DB) (req : UpdateRequest)
    (r : PrescriptionReference)
    (hc : f.connectFails = false) (hb : f.beginFails = false)
    (hl : f.lookupFails = false)
    (hpf : (guardPatient req && f.patientFails) = false)
    (hdf : (guardDoctor req && f.doctorFails) = false)
    (hmf : (guardMedicine req && f.medicineFails) = false)
    (hcf : f.commitFails = false)
    (hfind : db.findRef req.reference_number = some r) :
    UpdatePatientDetails f db req =
      { db := specCommittedUpdate db r req
        issued :=
          ((if guardPatient req then [TableName.patientT] else []) ++
            (if guardDoctor req then [TableName.doctorT] else [])) ++
            (if guardMedicine req then [TableName.medicineT] else [])
        raised := false
        result := .ok true } := by
  simp [UpdatePatientDetails, hc, hb, hl, hfind, hpf, hdf, hmf, hcf]
  cases g1 : guardPatient req <;> cases g2 : guardDoctor req <;> cases g3 : guardMedicine req <;>
    simp only [guardDoctor] at g2 <;>
      simp [g1, g2, g3, specCommittedUpdate, updateDoctorRow, guardDoctor,
        patientTable_map_of_guard_false, doctorTable_map_of_guard_false,
        medicineTable_map_of_guard_false]

/-! ## Sample data for witnesses -/

/-- A one-row-per-table sample database. -/
def sampleDB : DB :=
  { patient := [{ id := 1, name := "Alice", age := 30, gender := "F", contact := "123" }]
    doctor := [{ id := 1, name := "Bob" }]
    medicine := [{ id := 1, name := "Aspirin", description := "pain" }]
    prescription_reference :=
      [{ reference_number := "R1", patient_id := 1, doctor_id := 1, medicine_id := 1 }] }

/-- A request that supplies only `reference_number` (proto3 defaults for all
optional fields). -/
def emptyReq : UpdateRequest :=
  { reference_number := "R1", name := "", age := 0, gender := "", contact := "",
    doctor_name := "", medicine_name := "", description := "" }

/-- A request that supplies every field. -/
def fullReq : UpdateRequest :=
  { reference_number := "R1", name := "Ann", age := 31, gender := "F", contact := "456",
    doctor_name := "Carol", medicine_name := "Ibuprofen", description := "anti" }

/-- Case analysis on the committed state of any run: either the database is
untouched, or the reference was found and the full update was committed. -/
theorem updateDetails_db_cases (f : Faults) (db : DB) (req : UpdateRequest) :
    (UpdatePatientDetails f db req).db = db ∨
      ∃ r, db.findRef req.reference_number = some r ∧
        (UpdatePatientDetails f db req).db = specCommittedUpdate db r req := by
  cases hc : f.connectFails with
  | true => left; simp [UpdatePatientDetails, hc]
  | false =>
  cases hb : f.beginFails with
  | true => left; simp [UpdatePatientDetails, hc, hb]
  | false =>
  cases hl : f.lookupFails with
  | true => left; simp [UpdatePatientDetails, hc, hb, hl]
  | false =>
  cases hfind : db.findRef req.reference_number with
  | none => left; simp [UpdatePatientDetails, hc, hb, hl, hfind]
  | some r =>
  cases hpf : guardPatient req && f.patientFails with
  | true => left; simp [UpdatePatientDetails, hc, hb, hl, hfind, hpf]
  | false =>
  cases hdf : guardDoctor req && f.doctorFails with
  | true => left; simp [UpdatePatientDetails, hc, hb, hl, hfind, hpf, hdf]
  | false =>
  cases hmf : guardMedicine req && f.medicineFails with
  | true => left; simp [UpdatePatientDetails, hc, hb, hl, hfind, hpf, hdf, hmf]
  | false =>
  cases hcf : f.commitFails with
  | true => left; simp [UpdatePatientDetails, hc, hb, hl, hfind, hpf, hdf, hmf, hcf]
  | false =>
    right
    exact ⟨r, rfl, by rw [updateDetails_commit f db req r hc hb hl hpf hdf hmf hcf hfind]⟩

/-! ## Claim theorems -/

/-- Claim C1: if any step after the transaction begins throws (the id lookup,
any executed conditional `UPDATE`, or the commit), the transaction is rolled
back — the committed state is the input database, so no table is modified —
and the caller receives `INTERNAL`; moreover a partial update is never
committed: the committed state is always either the input database or the
full three-table update. -/
theorem updateDetails_rollback_on_exception (f : Faults) (db : DB) (req : UpdateRequest) :
    ((UpdatePatientDetails f db req).raised = true →
      (UpdatePatientDetails f db req).db = db ∧
        (UpdatePatientDetails f db req).result = .error .INTERNAL) ∧
      ((UpdatePatientDetails f db req).db = db ∨
        ∃ r, db.findRef req.reference_number = some r ∧
          (UpdatePatientDetails f db req).db = specCommittedUpdate db r req) := by
  refine ⟨fun hr => ?_, updateDetails_db_cases f db req⟩
  cases hc : f.connectFails with
  | true => simp [UpdatePatientDetails, hc] at hr
  | false =>
  cases hb : f.beginFails with
  | true => simp [UpdatePatientDetails, hc, hb] at hr
  | false =>
  cases hl : f.lookupFails with
  | true => constructor <;> simp [UpdatePatientDetails, hc, hb, hl]
  | false =>
  cases hfind : db.findRef req.reference_number with
  | none => simp [UpdatePatientDetails, hc, hb, hl, hfind] at hr
  | some r =>
  cases hpf : guardPatient req && f.patientFails with
  | true => constructor <;> simp [UpdatePatientDetails, hc, hb, hl, hfind, hpf]
  | false =>
  cases hdf : guardDoctor req && f.doctorFails with
  | true => constructor <;> simp [UpdatePatientDetails, hc, hb, hl, hfind, hpf, hdf]
  | false =>
  cases hmf : guardMedicine req && f.medicineFails with
  | true => constructor <;> simp [UpdatePatientDetails, hc, hb, hl, hfind, hpf, hdf, hmf]
  | false =>
  cases hcf : f.commitFails with
  | true => constructor <;> simp [UpdatePatientDetails, hc, hb, hl, hfind, hpf, hdf, hmf, hcf]
  | false => simp [UpdatePatientDetails, hc, hb, hl, hfind, hpf, hdf, hmf, hcf] at hr

/-- Concrete run for C1: a commit fault on the sample database rolls back
and reports `INTERNAL`. -/
theorem updateDetails_rollback_on_exception_witness :
    (UpdatePatientDetails { noFaults with commitFails := true } sampleDB fullReq).raised = true ∧
      (UpdatePatientDetails { noFaults with commitFails := true } sampleDB fullReq).db = sampleDB ∧
        (UpdatePatientDetails { noFaults with commitFails := true } sampleDB fullReq).result =
          .error .INTERNAL :=
  ⟨by decide,
    ((updateDetails_rollback_on_exception { noFaults with commitFails := true } sampleDB
        fullReq).1 (by decide)).1,
    ((updateDetails_rollback_on_exception { noFaults with commitFails := true } sampleDB
        fullReq).1 (by decide)).2⟩

/-- Claim C2: when the reference is found and no step throws, every supplied
(truthy) input field replaces the stored column of the referenced patient,
doctor, or medicine row, every missing (falsy, the proto3 default) input
field leaves the stored value unchanged, and the call returns success. -/
theorem updateDetails_success_semantics (db : DB) (req : UpdateRequest)
    (r : PrescriptionReference) (hfind : db.findRef req.reference_number = some r) :
    (UpdatePatientDetails noFaults db req).result = .ok true ∧
      (UpdatePatientDetails noFaults db req).db = specCommittedUpdate db r req := by
  rw [updateDetails_commit noFaults db req r rfl rfl rfl (by simp [noFaults])
    (by simp [noFaults]) (by simp [noFaults]) rfl hfind]
  exact ⟨rfl, rfl⟩

/-- Concrete run for C2 on the sample database with every field supplied. -/
theorem updateDetails_success_semantics_witness :
    (UpdatePatientDetails noFaults sampleDB fullReq).result = .ok true ∧
      (UpdatePatientDetails noFaults sampleDB fullReq).db =
        specCommittedUpdate sampleDB
          { reference_number := "R1", patient_id := 1, doctor_id := 1, medicine_id := 1 }
          fullReq :=
  updateDetails_success_semantics sampleDB fullReq
    { reference_number := "R1", patient_id := 1, doctor_id := 1, medicine_id := 1 } (by decide)

/-- Claim C3: when the reference number matches no `prescription_reference`
row and connect, begin and the lookup succeed, the call rolls the
transaction back and returns `NOT_FOUND`: no `UPDATE` statement is executed,
no exception is raised, and every table is unchanged. -/
theorem updateDetails_not_found (f : Faults) (db : DB) (req : UpdateRequest)
    (hc : f.connectFails = false) (hb : f.beginFails = false) (hl : f.lookupFails = false)
    (hnone : db.findRef req.reference_number = none) :
    UpdatePatientDetails f db req =
      { db := db, issued := [], raised := false, result := .error .NOT_FOUND } := by
  simp [UpdatePatientDetails, hc, hb, hl, hnone]

/-- Concrete run for C3: an unknown reference number on the sample database. -/
theorem updateDetails_not_found_witness :
    UpdatePatientDetails noFaults sampleDB { fullReq with reference_number := "NOPE" } =
      { db := sampleDB, issued := [], raised := false, result := .error .NOT_FOUND } :=
  updateDetails_not_found noFaults sampleDB { fullReq with reference_number := "NOPE" }
    rfl rfl rfl (by decide)

/-- Claim C10: a call that supplies only `reference_number` (every optional
field at its proto3 default) on an existing reference executes no `UPDATE`
statement, leaves every table unchanged, still commits, and returns
success. -/
theorem updateDetails_noop_identity (db : DB) (req : UpdateRequest)
    (r : PrescriptionReference) (hfind : db.findRef req.reference_number = some r)
    (hname : req.name = "") (hage : req.age = 0) (hgender : req.gender = "")
    (hcontact : req.contact = "") (hdoctor : req.doctor_name = "")
    (hmed : req.medicine_name = "") (hdesc : req.description = "") :
    UpdatePatientDetails noFaults db req =
      { db := db, issued := [], raised := false, result := .ok true } := by
  have g1 : guardPatient req = false := by
    simp [guardPatient, truthyS, truthyI, hname, hage, hgender, hcontact]
  have g2 : guardDoctor req = false := by simp [guardDoctor, truthyS, hdoctor]
  have g3 : guardMedicine req = false := by simp [guardMedicine, truthyS, hmed, hdesc]
  rw [updateDetails_commit noFaults db req r rfl rfl rfl (by simp [g1]) (by simp [g2])
    (by simp [g3]) rfl hfind]
  simp [g1, g2, g3, specCommittedUpdate,
    patientTable_map_of_guard_false req r.patient_id g1,
    doctorTable_map_of_guard_false req r.doctor_id (by simpa [guardDoctor] using g2),
    medicineTable_map_of_guard_false req r.medicine_id g3]

/-- Concrete run for C10: the defaults-only request on the sample database. -/
theorem updateDetails_noop_identity_witness :
    UpdatePatientDetails noFaults sampleDB emptyReq =
      { db := sampleDB, issued := [], raised := false, result := .ok true } :=
  updateDetails_noop_identity sampleDB emptyReq
    { reference_number := "R1", patient_id := 1, doctor_id := 1, medicine_id := 1 }
    (by decide) rfl rfl rfl rfl rfl rfl rfl

/-- The first component of `GetPatient` is always the unchanged database. -/
theorem GetPatient_db (fault : Bool) (db : DB) (nm : String) :
    (GetPatient fault db nm).1 = db := by
  unfold GetPatient
  split
  · rfl
  · split <;> rfl

/-- The first component of `GetPrescription` is always the unchanged
database. -/
theorem GetPrescription_db (fault : Bool) (db : DB) (ref : String) :
    (GetPrescription fault db ref).1 = db := by
  unfold GetPrescription
  split
  · rfl
  · split <;> rfl

/-- The first component of `GetReference` is always the unchanged database. -/
theorem GetReference_db (fault : Bool) (db : DB) (ref : String) :
    (GetReference fault db ref).1 = db := by
  unfold GetReference
  split
  · rfl
  · split <;> rfl

/-- The first component of `GetAllPatients` is always the unchanged
database. -/
theorem GetAllPatients_db (fault : Bool) (db : DB) (page pageSize : Int) :
    (GetAllPatients fault db page pageSize).1 = db := by
  simp only [GetAllPatients]
  repeat' split
  all_goals rfl

/-- The spec-side committed update preserves referential integrity: it keeps
`prescription_reference` intact and every row transformer preserves `id`. -/
theorem specCommittedUpdate_integrity (db : DB) (r : PrescriptionReference)
    (req : UpdateRequest) (hdb : RefIntegrity db) :
    RefIntegrity (specCommittedUpdate db r req) := by
  intro pr hpr
  simp only [specCommittedUpdate] at hpr ⊢
  obtain ⟨c1, c2, c3⟩ := hdb pr hpr
  refine ⟨?_, ?_, ?_⟩
  · rw [countP_map_fix db.patient _ _ (fun p => ?_)]
    · exact c1
    · by_cases h : p.id = r.patient_id <;> simp [h, updatePatientRow]
  · rw [countP_map_fix db.doctor _ _ (fun d => ?_)]
    · exact c2
    · by_cases h : d.id = r.doctor_id <;> simp [h]
  · rw [countP_map_fix db.medicine _ _ (fun m => ?_)]
    · exact c3
    · by_cases h : m.id = r.medicine_id <;> simp [h, updateMedicineRow]

/-- Claim C4: no `UpdatePatientDetails` call ever modifies the
`prescription_reference` table — reference number and the three foreign keys
of every row survive any run unchanged — and the only rows that may change
are those whose `id` the matched reference carries; when no reference
matches, the whole database is unchanged. -/
theorem updateDetails_frame (f : Faults) (db : DB) (req : UpdateRequest) :
    (UpdatePatientDetails f db req).db.prescription_reference = db.prescription_reference ∧
      (∀ r, db.findRef req.reference_number = some r →
        List.Forall₂ (fun p q => q = p ∨ p.id = r.patient_id) db.patient
            (UpdatePatientDetails f db req).db.patient ∧
          List.Forall₂ (fun d q => q = d ∨ d.id = r.doctor_id) db.doctor
            (UpdatePatientDetails f db req).db.doctor ∧
          List.Forall₂ (fun m q => q = m ∨ m.id = r.medicine_id) db.medicine
            (UpdatePatientDetails f db req).db.medicine) ∧
      (db.findRef req.reference_number = none → (UpdatePatientDetails f db req).db = db) := by
  rcases updateDetails_db_cases f db req with hdb | ⟨r0, hr0, hdb⟩
  · refine ⟨by rw [hdb], fun r _ => ?_, fun _ => hdb⟩
    rw [hdb]
    exact ⟨List.forall₂_same.mpr (fun p _ => Or.inl rfl),
      List.forall₂_same.mpr (fun d _ => Or.inl rfl),
      List.forall₂_same.mpr (fun m _ => Or.inl rfl)⟩
  · refine ⟨by rw [hdb]; rfl, fun r hr => ?_, fun hnone => ?_⟩
    · have hrr : r = r0 := by
        rw [hr0] at hr
        exact (Option.some.inj hr).symm
      subst hrr
      rw [hdb]
      simp only [specCommittedUpdate]
      refine ⟨?_, ?_, ?_⟩
      · rw [List.forall₂_map_right_iff]
        refine List.forall₂_same.mpr (fun p _ => ?_)
        by_cases h : p.id = r.patient_id
        · exact Or.inr h
        · simp [h]
      · rw [List.forall₂_map_right_iff]
        refine List.forall₂_same.mpr (fun d _ => ?_)
        by_cases h : d.id = r.doctor_id
        · exact Or.inr h
        · simp [h]
      · rw [List.forall₂_map_right_iff]
        refine List.forall₂_same.mpr (fun m _ => ?_)
        by_cases h : m.id = r.medicine_id
        · exact Or.inr h
        · simp [h]
    · rw [hnone] at hr0
      cases hr0

/-- Concrete run for C4: the full-field update on the sample database leaves
the reference table untouched and only touches the referenced rows. -/
theorem updateDetails_frame_witness :
    (UpdatePatientDetails noFaults sampleDB fullReq).db.prescription_reference =
        sampleDB.prescription_reference ∧
      List.Forall₂ (fun p q => q = p ∨ p.id = (1 : Int)) sampleDB.patient
        (UpdatePatientDetails noFaults sampleDB fullReq).db.patient :=
  ⟨(updateDetails_frame noFaults sampleDB fullReq).1,
    ((updateDetails_frame noFaults sampleDB fullReq).2.1
      { reference_number := "R1", patient_id := 1, doctor_id := 1, medicine_id := 1 }
      (by decide)).1⟩

/-- Claim C5: referential integrity — every `prescription_reference` row
references exactly one existing patient, doctor, and medicine row — is
preserved by every operation of the service. -/
theorem refIntegrity_preserved (db : DB) (hdb : RefIntegrity db) :
    (∀ fault nm, RefIntegrity (GetPatient fault db nm).1) ∧
      (∀ fault page pageSize, RefIntegrity (GetAllPatients fault db page pageSize).1) ∧
      (∀ fault ref, RefIntegrity (GetPrescription fault db ref).1) ∧
      (∀ fault ref, RefIntegrity (GetReference fault db ref).1) ∧
      (∀ f req, RefIntegrity (UpdatePatientDetails f db req).db) := by
  refine ⟨fun fault nm => ?_, fun fault page pageSize => ?_, fun fault ref => ?_,
    fun fault ref => ?_, fun f req => ?_⟩
  · rw [GetPatient_db]; exact hdb
  · rw [GetAllPatients_db]; exact hdb
  · rw [GetPrescription_db]; exact hdb
  · rw [GetReference_db]; exact hdb
  · rcases updateDetails_db_cases f db req with h | ⟨r, _, h⟩
    · rw [h]; exact hdb
    · rw [h]; exact specCommittedUpdate_integrity db r req hdb

/-- Concrete run for C5: integrity of the sample database survives the
full-field update. -/
theorem refIntegrity_preserved_witness :
    RefIntegrity sampleDB ∧
      RefIntegrity (UpdatePatientDetails noFaults sampleDB fullReq).db :=
  ⟨by decide, (refIntegrity_preserved sampleDB (by decide)).2.2.2.2 noFaults fullReq⟩

/-- Claim C9: a supplied-but-falsy input field — `age = 0`, or `name`,
`gender`, `contact`, `doctor_name`, `medicine_name` or `description` equal
to the empty string — is treated exactly like a missing field: the
corresponding stored column is unchanged in every row, under every fault
schedule, so this operation can never set a patient age to 0 or any of these
text columns to the empty string. -/
theorem updateDetails_falsy_fields_ignored (f : Faults) (db : DB) (req : UpdateRequest) :
    (req.name = "" →
      (UpdatePatientDetails f db req).db.patient.map Patient.name = db.patient.map Patient.name) ∧
    (req.age = 0 →
      (UpdatePatientDetails f db req).db.patient.map Patient.age = db.patient.map Patient.age) ∧
    (req.gender = "" →
      (UpdatePatientDetails f db req).db.patient.map Patient.gender = db.patient.map Patient.gender) ∧
    (req.contact = "" →
      (UpdatePatientDetails f db req).db.patient.map Patient.contact = db.patient.map Patient.contact) ∧
    (req.doctor_name = "" →
      (UpdatePatientDetails f db req).db.doctor.map Doctor.name = db.doctor.map Doctor.name) ∧
    (req.medicine_name = "" →
      (UpdatePatientDetails f db req).db.medicine.map Medicine.name = db.medicine.map Medicine.name) ∧
    (req.description = "" →
      (UpdatePatientDetails f db req).db.medicine.map Medicine.description =
        db.medicine.map Medicine.description) := by
  rcases updateDetails_db_cases f db req with hdb | ⟨r, _, hdb⟩
  · rw [hdb]
    exact ⟨fun _ => rfl, fun _ => rfl, fun _ => rfl, fun _ => rfl, fun _ => rfl,
      fun _ => rfl, fun _ => rfl⟩
  · rw [hdb]
    simp only [specCommittedUpdate]
    refine ⟨fun hx => ?_, fun hx => ?_, fun hx => ?_, fun hx => ?_, fun hx => ?_,
      fun hx => ?_, fun hx => ?_⟩
    · exact map_map_field _ _ _ (fun p => by
        by_cases h : p.id = r.patient_id <;> simp [h, updatePatientRow, truthyS, hx])
    · exact map_map_field _ _ _ (fun p => by
        by_cases h : p.id = r.patient_id <;> simp [h, updatePatientRow, truthyI, hx])
    · exact map_map_field _ _ _ (fun p => by
        by_cases h : p.id = r.patient_id <;> simp [h, updatePatientRow, truthyS, hx])
    · exact map_map_field _ _ _ (fun p => by
        by_cases h : p.id = r.patient_id <;> simp [h, updatePatientRow, truthyS, hx])
    · exact map_map_field _ _ _ (fun d => by
        by_cases h : d.id = r.doctor_id <;> simp [h, truthyS, hx])
    · exact map_map_field _ _ _ (fun m => by
        by_cases h : m.id = r.medicine_id <;> simp [h, updateMedicineRow, truthyS, hx])
    · exact map_map_field _ _ _ (fun m => by
        by_cases h : m.id = r.medicine_id <;> simp [h, updateMedicineRow, truthyS, hx])

/-- Concrete run for C9: an update with `name = ""` and `age = 0` leaves
every stored patient name and age unchanged. -/
theorem updateDetails_falsy_fields_ignored_witness :
    (UpdatePatientDetails noFaults sampleDB
          { fullReq with name := "", age := 0 }).db.patient.map Patient.name =
        sampleDB.patient.map Patient.name ∧
      (UpdatePatientDetails noFaults sampleDB
          { fullReq with name := "", age := 0 }).db.patient.map Patient.age =
        sampleDB.patient.map Patient.age :=
  ⟨(updateDetails_falsy_fields_ignored noFaults sampleDB
      { fullReq with name := "", age := 0 }).1 rfl,
    (updateDetails_falsy_fields_ignored noFaults sampleDB
      { fullReq with name := "", age := 0 }).2.1 rfl⟩

/-- Without faults `GetPatient` returns `NOT_FOUND` exactly when no patient
row carries the requested name. -/
theorem GetPatient_not_found_iff (db : DB) (nm : String) :
    ((GetPatient false db nm).2 = .error .NOT_FOUND ↔ ∀ p ∈ db.patient, ¬p.name = nm) := by
  rcases hfilter : db.patient.filter (fun p => p.name = nm) with _ | ⟨row, rest⟩
  · simp [GetPatient, hfilter]
    simpa using List.filter_eq_nil_iff.mp hfilter
  · simp [GetPatient, hfilter]
    have hrow : row ∈ db.patient.filter (fun p => p.name = nm) := by
      rw [hfilter]; exact List.mem_cons_self row rest
    rw [List.mem_filter] at hrow
    exact ⟨row, hrow.1, of_decide_eq_true hrow.2⟩

/-- Without faults `GetPrescription` returns `NOT_FOUND` exactly when no
joined row carries the requested reference number. -/
theorem GetPrescription_not_found_iff (db : DB) (ref : String) :
    ((GetPrescription false db ref).2 = .error .NOT_FOUND ↔
      ∀ row ∈ db.joinRows, ¬row.reference_number = ref) := by
  rcases hfilter : db.joinRows.filter (fun r => r.reference_number = ref) with _ | ⟨row, rest⟩
  · simp [GetPrescription, hfilter]
    simpa using List.filter_eq_nil_iff.mp hfilter
  · simp [GetPrescription, hfilter]
    have hrow : row ∈ db.joinRows.filter (fun r => r.reference_number = ref) := by
      rw [hfilter]; exact List.mem_cons_self row rest
    rw [List.mem_filter] at hrow
    exact ⟨row, hrow.1, of_decide_eq_true hrow.2⟩

/-- Without faults `GetReference` returns `NOT_FOUND` exactly when no
reference row matches the `LIKE` pattern `%pat%`. -/
theorem GetReference_not_found_iff (db : DB) (pat : String) :
    ((GetReference false db pat).2 = .error .NOT_FOUND ↔
      ∀ r ∈ db.prescription_reference,
        ¬likeMatch ("%" ++ pat ++ "%").toList r.reference_number.toList = true) := by
  rcases hfilter : db.prescription_reference.filter
      (fun r => likeMatch ("%" ++ pat ++ "%").toList r.reference_number.toList) with _ | ⟨row, rest⟩
  · unfold GetReference
    rw [if_neg (by decide : ¬(false = true)), hfilter]
    constructor
    · intro _
      simpa using List.filter_eq_nil_iff.mp hfilter
    · intro _
      rfl
  · have hrow : row ∈ db.prescription_reference.filter
        (fun r => likeMatch ("%" ++ pat ++ "%").toList r.reference_number.toList) := by
      rw [hfilter]; exact List.mem_cons_self row rest
    rw [List.mem_filter] at hrow
    unfold GetReference
    rw [if_neg (by decide : ¬(false = true)), hfilter]
    constructor
    · intro h
      exact absurd h (by simp)
    · intro hall
      exact absurd hrow.2 (hall row hrow.1)

/-- Any error status `GetPatient` produces is `NOT_FOUND` or `INTERNAL`. -/
theorem GetPatient_status (fault : Bool) (db : DB) (nm : String) (s : GrpcStatus)
    (h : (GetPatient fault db nm).2 = .error s) : s = .NOT_FOUND ∨ s = .INTERNAL := by
  unfold GetPatient at h
  split at h
  · exact Or.inr (Except.error.inj h).symm
  · split at h
    · exact Or.inl (Except.error.inj h).symm
    · simp at h

/-- Any error status `GetPrescription` produces is `NOT_FOUND` or
`INTERNAL`. -/
theorem GetPrescription_status (fault : Bool) (db : DB) (ref : String) (s : GrpcStatus)
    (h : (GetPrescription fault db ref).2 = .error s) : s = .NOT_FOUND ∨ s = .INTERNAL := by
  unfold GetPrescription at h
  split at h
  · exact Or.inr (Except.error.inj h).symm
  · split at h
    · exact Or.inl (Except.error.inj h).symm
    · simp at h

/-- Any error status `GetReference` produces is `NOT_FOUND` or `INTERNAL`. -/
theorem GetReference_status (fault : Bool) (db : DB) (pat : String) (s : GrpcStatus)
    (h : (GetReference fault db pat).2 = .error s) : s = .NOT_FOUND ∨ s = .INTERNAL := by
  unfold GetReference at h
  split at h
  · exact Or.inr (Except.error.inj h).symm
  · split at h
    · exact Or.inl (Except.error.inj h).symm
    · simp at h

/-- Claim C6: for every call, `GetPatient`, `GetPrescription` and
`GetReference` return `NOT_FOUND` exactly when the query runs and no row
matches the given name, reference number, or pattern respectively; a
connection or query failure yields `INTERNAL`, surfaced directly to the
caller; and no status other than `NOT_FOUND` or `INTERNAL` is ever
produced. -/
theorem get_ops_error_taxonomy (db : DB) (fault : Bool) (nm ref pat : String) :
    (fault = true →
      (GetPatient fault db nm).2 = .error .INTERNAL ∧
        (GetPrescription fault db ref).2 = .error .INTERNAL ∧
        (GetReference fault db pat).2 = .error .INTERNAL) ∧
      (fault = false →
        ((GetPatient fault db nm).2 = .error .NOT_FOUND ↔ ∀ p ∈ db.patient, ¬p.name = nm) ∧
          ((GetPrescription fault db ref).2 = .error .NOT_FOUND ↔
            ∀ row ∈ db.joinRows, ¬row.reference_number = ref) ∧
          ((GetReference fault db pat).2 = .error .NOT_FOUND ↔
            ∀ r ∈ db.prescription_reference,
              ¬likeMatch ("%" ++ pat ++ "%").toList r.reference_number.toList = true)) ∧
      (∀ s : GrpcStatus,
        (GetPatient fault db nm).2 = .error s ∨ (GetPrescription fault db ref).2 = .error s ∨
            (GetReference fault db pat).2 = .error s →
          s = .NOT_FOUND ∨ s = .INTERNAL) := by
  refine ⟨fun hf => ?_, fun hf => ?_, fun s hs => ?_⟩
  · subst hf
    exact ⟨by simp [GetPatient], by simp [GetPrescription], by simp [GetReference]⟩
  · subst hf
    exact ⟨GetPatient_not_found_iff db nm, GetPrescription_not_found_iff db ref,
      GetReference_not_found_iff db pat⟩
  · rcases hs with h | h | h
    · exact GetPatient_status fault db nm s h
    · exact GetPrescription_status fault db ref s h
    · exact GetReference_status fault db pat s h

/-- Concrete runs for C6: a faulted call yields `INTERNAL`, and a miss on
the sample database yields `NOT_FOUND` exactly when no name matches. -/
theorem get_ops_error_taxonomy_witness :
    (GetPatient true sampleDB "Alice").2 = .error .INTERNAL ∧
      ((GetPatient false sampleDB "Zed").2 = .error .NOT_FOUND ↔
        ∀ p ∈ sampleDB.patient, ¬p.name = "Zed") :=
  ⟨((get_ops_error_taxonomy sampleDB true "Alice" "R1" "R").1 rfl).1,
    ((get_ops_error_taxonomy sampleDB false "Zed" "R1" "R").2.1 rfl).1⟩

/-- Claim C7: each front-API resolver makes exactly one remote call, with
the request's arguments, and resolves with that call's response —
`getAllPatients` with the response's patients list or the empty list,
`updatePatientDetails` with the response's success flag — or rejects with
its error; no cache is consulted or filled, so the outcome is determined
solely by the remote response. -/
theorem resolvers_forward {ε : Type}
    (rP : GetPatientArgs → Except ε PatientMsg)
    (rA : PageArgs → Except ε AllPatientsRemoteResponse)
    (rX : RefArgs → Except ε PrescriptionMsg)
    (rS : RefArgs → Except ε SearchMsg)
    (rU : UpdateArgs → Except ε UpdateRemoteResponse)
    (nm : String) (pg psz : Option Int) (ref pat : String) (args : UpdateArgs) :
    ((getPatientResolver rP nm).requests = [{ name := nm }] ∧
      (∀ e, rP { name := nm } = .error e → (getPatientResolver rP nm).outcome = .error e) ∧
      (∀ v, rP { name := nm } = .ok v → (getPatientResolver rP nm).outcome = .ok v)) ∧
    ((getAllPatientsResolver rA pg psz).requests = [{ page := pg, pageSize := psz }] ∧
      (∀ e, rA { page := pg, pageSize := psz } = .error e →
        (getAllPatientsResolver rA pg psz).outcome = .error e) ∧
      (∀ v, rA { page := pg, pageSize := psz } = .ok v →
        (getAllPatientsResolver rA pg psz).outcome = .ok (v.patients.getD []))) ∧
    ((getPrescriptionResolver rX ref).requests = [{ ref_no := ref }] ∧
      (∀ e, rX { ref_no := ref } = .error e → (getPrescriptionResolver rX ref).outcome = .error e) ∧
      (∀ v, rX { ref_no := ref } = .ok v → (getPrescriptionResolver rX ref).outcome = .ok v)) ∧
    ((getReferenceResolver rS pat).requests = [{ ref_no := pat }] ∧
      (∀ e, rS { ref_no := pat } = .error e → (getReferenceResolver rS pat).outcome = .error e) ∧
      (∀ v, rS { ref_no := pat } = .ok v → (getReferenceResolver rS pat).outcome = .ok v)) ∧
    ((updatePatientDetailsResolver rU args).requests = [args] ∧
      (∀ e, rU args = .error e → (updatePatientDetailsResolver rU args).outcome = .error e) ∧
      (∀ v, rU args = .ok v →
        (updatePatientDetailsResolver rU args).outcome = .ok v.success)) := by
  refine ⟨⟨rfl, fun e h => ?_, fun v h => ?_⟩, ⟨rfl, fun e h => ?_, fun v h => ?_⟩,
    ⟨rfl, fun e h => ?_, fun v h => ?_⟩, ⟨rfl, fun e h => ?_, fun v h => ?_⟩,
    ⟨rfl, fun e h => ?_, fun v h => ?_⟩⟩ <;>
    simp [getPatientResolver, getAllPatientsResolver, getPrescriptionResolver,
      getReferenceResolver, updatePatientDetailsResolver, h]

/-- Concrete run for C7: a stub remote whose reply the `getPatient` resolver
relays verbatim. -/
theorem resolvers_forward_witness :
    (getPatientResolver
        (fun _ => (Except.ok { name := "A", age := 1, gender := "F", contact := "0" } :
          Except Unit PatientMsg)) "A").outcome =
      Except.ok { name := "A", age := 1, gender := "F", contact := "0" } :=
  (@resolvers_forward Unit
      (fun _ => Except.ok { name := "A", age := 1, gender := "F", contact := "0" })
      (fun _ => Except.error ()) (fun _ => Except.error ()) (fun _ => Except.error ())
      (fun _ => Except.error ()) "A" none none "r" "r"
      { reference_number := "R1", name := none, age := none, gender := none, contact := none,
        doctor_name := none, medicine_name := none, description := none }).1.2.2 _ rfl

/-- Claim C8: for `GetAllPatients`, a missing (`0`) page defaults to 1 and a
missing (`0`) pageSize defaults to 10; the call succeeds and returns the
page of the join ordered by `reference_number` at offset
`(page - 1) * pageSize`, at most `pageSize` rows long; and every returned
row carries `totalCount` equal to the number of `prescription_reference`
rows and `totalPages` equal to the ceiling of `totalCount / pageSize` — the
least `n` with `totalCount ≤ n * pageSize`. -/
theorem getAllPatients_pagination (db : DB) (page pageSize : Int)
    (hp : 0 ≤ page) (hs : 0 ≤ pageSize) :
    GetAllPatients false db 0 pageSize = GetAllPatients false db 1 pageSize ∧
      GetAllPatients false db page 0 = GetAllPatients false db page 10 ∧
      (GetAllPatients false db page pageSize).2 =
        .ok (allPatientsPage db (if truthyI page then page else 1)
          (if truthyI pageSize then pageSize else 10)) ∧
      ∀ p ps : Int, 1 ≤ ps →
        (allPatientsPage db p ps).patients =
            ((db.sortedJoin.drop ((p - 1) * ps).toNat).take ps.toNat).map
              (toPagedRow db.prescription_reference.length
                ((db.prescription_reference.length + ps.toNat - 1) / ps.toNat)) ∧
          (allPatientsPage db p ps).patients.length ≤ ps.toNat ∧
          ∀ row ∈ (allPatientsPage db p ps).patients,
            row.totalCount = db.prescription_reference.length ∧
              ∀ n : Nat, (row.totalCount ≤ n * ps.toNat ↔ row.totalPages ≤ n) := by
  refine ⟨rfl, rfl, ?_, ?_⟩
  · have hpE : (1 : Int) ≤ (if truthyI page then page else 1) := by
      by_cases h : page = 0
      · simp [truthyI, h]
      · simp [truthyI, h]; omega
    have hpS : (1 : Int) ≤ (if truthyI pageSize then pageSize else 10) := by
      by_cases h : pageSize = 0
      · simp [truthyI, h]
      · simp [truthyI, h]; omega
    have hguard : (decide ((((if truthyI page then page else 1) - 1) *
            (if truthyI pageSize then pageSize else 10)) < 0) ||
          decide ((if truthyI pageSize then pageSize else 10) < 0)) = false := by
      rw [Bool.or_eq_false_iff]
      constructor
      · rw [decide_eq_false_iff_not]
        exact not_lt.mpr (mul_nonneg (by omega) (by omega))
      · rw [decide_eq_false_iff_not]
        omega
    simp only [GetAllPatients]
    rw [hguard]
    rfl
  · intro p ps hps
    refine ⟨rfl, ?_, ?_⟩
    · simp only [allPatientsPage, List.length_map]
      exact List.length_take_le _ _
    · intro row hrow
      simp only [allPatientsPage, List.mem_map] at hrow
      obtain ⟨r, _, rfl⟩ := hrow
      refine ⟨rfl, fun n => ?_⟩
      simp only [toPagedRow]
      rw [Nat.div_le_iff_le_mul_add_pred (by omega : 0 < ps.toNat), Nat.mul_comm ps.toNat n]
      omega

/-- Concrete run for C8: both arguments missing on the sample database hit
both defaults, and the page is at most ten rows long. -/
theorem getAllPatients_pagination_witness :
    (GetAllPatients false sampleDB 0 0).2 = .ok (allPatientsPage sampleDB 1 10) ∧
      (allPatientsPage sampleDB 1 10).patients.length ≤ (10 : Int).toNat :=
  ⟨(getAllPatients_pagination sampleDB 0 0 le_rfl le_rfl).2.2.1,
    ((getAllPatients_pagination sampleDB 0 0 le_rfl le_rfl).2.2.2 1 10 (by norm_num)).2.1⟩

end Receipt
